import Mathlib

/-!
Shallow embedding of the Magic-MEME generation client and image utilities.

The generation client lives in the service module: a timeout race helper
(withTimeout), fixed style and intensity instruction builders, prompt
assembly, response-part extraction and error wrapping (generateMemeImage).
The image utility cropImageToSquare center-crops a decoded image to a
square canvas and serializes it as a PNG data URL.

Asynchrony is modelled by an explicit settlement time for the dispatched
service call: the call settles (fulfills or rejects) at time settleAt
milliseconds, and the 120000 ms timer wins the race exactly when the call
has not settled within that window. JavaScript thrown values are either
Error objects carrying a message string or arbitrary non-Error values.
-/

set_option maxRecDepth 100000

namespace MagicMeme

/-- Characters removed by the JavaScript string trim operation, modelled by
the whitespace class of the embedding. -/
def trimChars (l : List Char) : List Char :=
  ((l.dropWhile Char.isWhitespace).reverse.dropWhile Char.isWhitespace).reverse

/-- Model of the JavaScript trim method on strings: strip leading and
trailing whitespace. -/
def jsTrim (s : String) : String :=
  ⟨trimChars s.data⟩

/-- Boolean test that the pattern list is an initial segment of the first
list. -/
def listStartsWith : List Char → List Char → Bool
  | _, [] => true
  | [], _ :: _ => false
  | a :: as, b :: bs => a == b && listStartsWith as bs

/-- Boolean test that the pattern occurs contiguously somewhere in the
list. -/
def hasInfixChars : List Char → List Char → Bool
  | [], pat => pat.isEmpty
  | a :: rest, pat => listStartsWith (a :: rest) pat || hasInfixChars rest pat

/-- Model of the JavaScript String includes method: substring containment. -/
def strIncludes (s pat : String) : Bool :=
  hasInfixChars s.data pat.data

/-- A value thrown in JavaScript: an Error object with a message, or any
non-Error value. -/
inductive Thrown where
  | error (msg : String)
  | nonError
  deriving DecidableEq

/-- Timeout helper from the service module: the promise is raced against a
timer of ms milliseconds. The promise settles at time settleAt with the
given outcome; if it has not settled within ms milliseconds the timer fires
first and the race rejects with the timeout Error, discarding the eventual
outcome of the promise. -/
def withTimeout {α : Type} (promise : Except Thrown α) (settleAt ms : Nat) :
    Except Thrown α :=
  if ms < settleAt then
    .error (.error ("Request timed out after " ++ toString (ms / 1000) ++ " seconds."))
  else
    promise

/-- Result record of the generation client: base64 body and MIME type of
the generated image. -/
structure GeneratedImage where
  base64 : String
  mimeType : String
  deriving DecidableEq

/-- Style instruction switch from the service module. The Enchanted case
falls through to the default arm, so the default clause doubles as the
Enchanted clause. -/
def getStyleInstruction (style : String) : String :=
  if style = "Realistic" then
    "in a photorealistic, cinematic style, as if it were a still from a live-action movie"
  else if style = "Anime" then
    "in a vibrant Japanese anime style, with characteristic large eyes, expressive features, and dynamic lines"
  else if style = "J-Art" then
    "in a beautiful, painterly Japanese art style, similar to concept art for a fantasy JRPG"
  else if style = "Exaggerated" then
    "in a heavily exaggerated caricature style, amplifying the subject\x27s expression and features for comedic effect"
  else if style = "Comical" then
    "in a goofy, comical cartoon style with bright colors and simplified, funny shapes"
  else
    "in the classic Disney animation style, reminiscent of films like \x27The Little Mermaid\x27 or \x27Aladdin\x27"

/-- Intensity instruction from the service module: three tiers selected by
inclusive upper thresholds 33 and 66. Intensity is a JavaScript number,
modelled as a rational. -/
def getIntensityInstruction (intensity : ℚ) : String :=
  if intensity ≤ 33 then
    "Subtly apply the style, making minimal changes to the original image\x27s structure and preserving the subject\x27s facial features as closely as possible."
  else if intensity ≤ 66 then
    "Apply a balanced style, preserving the core facial features of the subject while clearly transforming the overall aesthetic."
  else
    "Heavily redraw the image in the style, retaining only the most essential facial characteristics (like eye position and basic expression) while transforming everything else significantly."

/-- Caption clause of the prompt: present exactly when the meme text is
truthy after trimming, that is, nonempty. -/
def textInstruction (memeText : String) : String :=
  if jsTrim memeText = "" then ""
  else
    "Finally, integrate the text \"" ++ memeText ++ "\" into the image using a prominent, stylized font that fits the chosen aesthetic."

/-- Description clause of the prompt: present exactly when the description
is truthy after trimming, that is, nonempty. -/
def descriptionInstruction (description : String) : String :=
  if jsTrim description = "" then ""
  else
    "Crucially, you must modify the subject\x27s expression, pose, and the scene\x27s atmosphere to visually represent the following description: \"" ++ description ++ "\"."

/-- Full prompt assembled by generateMemeImage from the style, description,
intensity and caption clauses, in the template order of the source. -/
def fullPrompt (style : String) (redrawIntensity : ℚ) (memeText description : String) : String :=
  "Your task is to create an image. Redraw the provided image " ++
    getStyleInstruction style ++ ". " ++ descriptionInstruction description ++ " " ++
    getIntensityInstruction redrawIntensity ++ " " ++ textInstruction memeText ++
    " The output must be the final image only, with no explanatory text."

/-- Inline data of a response part: base64 data and MIME type. -/
structure InlineData where
  data : String
  mimeType : String
  deriving DecidableEq

/-- One content part of a service response: optional inline image data and
optional text. -/
structure Part where
  inlineData : Option InlineData
  text : Option String
  deriving DecidableEq

/-- Content of a response candidate: an optional list of parts. -/
structure Content where
  parts : Option (List Part)
  deriving DecidableEq

/-- One candidate of a service response: optional content. -/
structure Candidate where
  content : Option Content
  deriving DecidableEq

/-- Service response: an optional list of candidates. -/
structure Response where
  candidates : Option (List Candidate)
  deriving DecidableEq

/-- JavaScript truthiness of an optional string: undefined and the empty
string are falsy. -/
def truthyText : Option String → Bool
  | some t => t != ""
  | none => false

/-- Optional-chaining access to the parts of the first candidate, as in the
source expression candidates, first element, content, parts. -/
def responseParts (r : Response) : Option (List Part) :=
  ((r.candidates.bind List.head?).bind Candidate.content).bind Content.parts

/-- Branch of the extraction step taken when no part carries inline image
data: find the first part with truthy text and throw the model-refusal
Error carrying that text verbatim; otherwise throw the empty-response
Error. -/
def noImageCase (r : Response) : Except Thrown GeneratedImage :=
  match (responseParts r).bind (fun ps => ps.find? (fun p => truthyText p.text)) with
  | some textPart =>
    match textPart.text with
    | some t =>
      if t = "" then .error (.error "No image data found in the API response.")
      else .error (.error ("Model returned text instead of an image: " ++ t))
    | none => .error (.error "No image data found in the API response.")
  | none => .error (.error "No image data found in the API response.")

/-- Extraction step of generateMemeImage, inside the try block: find the
first part with inline image data and return its fields; otherwise fall to
the no-image branch. -/
def extract (r : Response) : Except Thrown GeneratedImage :=
  match (responseParts r).bind
      (fun ps => ps.find? (fun p => p.inlineData.isSome)) with
  | some imagePart =>
    match imagePart.inlineData with
    | some d => .ok { base64 := d.data, mimeType := d.mimeType }
    | none => noImageCase r
  | none => noImageCase r

/-- Request record dispatched to the external service: fixed model
identifier, the inline image part and the prompt text part. -/
structure GenRequest where
  model : String
  imageData : String
  imageMime : String
  promptText : String
  deriving DecidableEq

/-- Fixed user-facing timeout message of the catch block. -/
def timeoutUserMessage : String :=
  "Image generation timed out. The image may be too complex. Please try again with a different image."

/-- Fixed user-facing message of the catch block for non-Error throwables. -/
def unknownErrorMessage : String :=
  "An unknown error occurred while calling the Gemini API."

/-- Model of generateMemeImage. The environment supplies the outcome of the
dispatched service call (env) and its settlement time in milliseconds
(settleAt). Returns the request record that was dispatched together with
the settled outcome after the 120000 ms timeout race, extraction, and the
catch-block error wrapping: Errors whose message includes the timeout
marker become the fixed timeout message, other Errors are wrapped as API
errors, and non-Error throwables become the fixed unknown-error message. -/
def generateMemeImage (base64ImageData mimeType memeText description : String)
    (redrawIntensity : ℚ) (style : String)
    (env : Except Thrown Response) (settleAt : Nat) :
    GenRequest × Except String GeneratedImage :=
  let request : GenRequest :=
    { model := "gemini-2.5-flash-image-preview"
      imageData := base64ImageData
      imageMime := mimeType
      promptText := fullPrompt style redrawIntensity memeText description }
  let attempt : Except Thrown GeneratedImage :=
    match withTimeout env settleAt 120000 with
    | .error e => .error e
    | .ok r => extract r
  let outcome : Except String GeneratedImage :=
    match attempt with
    | .ok v => .ok v
    | .error (.error msg) =>
      if strIncludes msg "timed out" then .error timeoutUserMessage
      else .error ("API Error: " ++ msg)
    | .error .nonError => .error unknownErrorMessage
  (request, outcome)

/-- A decoded image as seen by the crop utility: dimensions in pixels and a
pixel lookup function. -/
structure HTMLImage where
  width : Nat
  height : Nat
  pixel : Nat → Nat → Nat

/-- The canvas operation performed by cropImageToSquare: canvas dimensions,
the drawImage source rectangle (sx, sy, sw, sh), the destination rectangle
(dx, dy, dw, dh), and the serialization format. Coordinates are JavaScript
numbers, modelled as rationals. -/
structure CanvasDraw where
  canvasWidth : Nat
  canvasHeight : Nat
  sx : ℚ
  sy : ℚ
  sw : ℚ
  sh : ℚ
  dx : ℚ
  dy : ℚ
  dw : ℚ
  dh : ℚ
  format : String

/-- Model of cropImageToSquare on a decoded image: side length is the
minimum of width and height, the source rectangle of that side is centered,
the destination covers the whole new canvas, and the canvas is serialized
as a PNG data URL. -/
def cropImageToSquare (img : HTMLImage) : CanvasDraw :=
  let size : Nat := min img.width img.height
  { canvasWidth := size
    canvasHeight := size
    sx := ((img.width : ℚ) - (size : ℚ)) / 2
    sy := ((img.height : ℚ) - (size : ℚ)) / 2
    sw := (size : ℚ)
    sh := (size : ℚ)
    dx := 0
    dy := 0
    dw := (size : ℚ)
    dh := (size : ℚ)
    format := "image/png" }

/-- Pixel semantics of the canvas drawImage call for a source rectangle at
natural-number offsets with equal source and destination size: the new
canvas of the given side copies the source pixels starting at the offsets,
at one-to-one scale. -/
def renderCrop (img : HTMLImage) (sx sy size : Nat) : HTMLImage :=
  { width := size
    height := size
    pixel := fun x y => img.pixel (sx + x) (sy + y) }

/-- Two images are identical when their dimensions agree and every in-range
pixel agrees. -/
def HTMLImage.identical (a b : HTMLImage) : Prop :=
  a.width = b.width ∧ a.height = b.height ∧
    ∀ x, x < a.width → ∀ y, y < a.height → a.pixel x y = b.pixel x y

/-- Concrete two-by-two test image. -/
def squareImage : HTMLImage :=
  { width := 2, height := 2, pixel := fun x y => 10 * x + y }

/-- Concrete image part used by witness responses. -/
def witnessImagePart : Part :=
  { inlineData := some { data := "QkFTRTY0", mimeType := "image/jpeg" }, text := none }

/-- Concrete response carrying one inline image part. -/
def imageResponse : Response :=
  { candidates := some [{ content := some { parts := some [witnessImagePart] } }] }

/-- Concrete response whose only part carries text and no image. -/
def textOnlyResponse (t : String) : Response :=
  { candidates := some [{ content := some { parts := some [{ inlineData := none, text := some t }] } }] }

theorem listStartsWith_self_append (p y : List Char) :
    listStartsWith (p ++ y) p = true := by
  induction p with
  | nil => cases y <;> rfl
  | cons a as ih => simp [listStartsWith, ih]

theorem strIncludes_decomp (a pat b : String) :
    strIncludes (a ++ pat ++ b) pat = true := by
  rcases a with ⟨la⟩
  rcases pat with ⟨lp⟩
  rcases b with ⟨lb⟩
  show hasInfixChars (la ++ lp ++ lb) lp = true
  induction la with
  | nil =>
    cases h : lp ++ lb with
    | nil =>
      rcases List.append_eq_nil.mp h with ⟨h1, h2⟩
      subst h1
      subst h2
      rfl
    | cons c cs =>
      simp only [List.nil_append, h, hasInfixChars]
      rw [← h]
      simp [listStartsWith_self_append]
  | cons a as ih =>
    simp only [List.cons_append, hasInfixChars, Bool.or_eq_true]
    right
    exact ih

/-- C1: if the external service call has not settled within 120 seconds
(settleAt exceeds the fixed 120000 ms timer), generateMemeImage rejects
with the timeout-classified error message, whatever the eventual outcome of
the in-flight call would have been. -/
theorem generate_timeout_rejects (b mt m d : String) (i : ℚ) (s : String)
    (env : Except Thrown Response) (settleAt : Nat) (h : 120000 < settleAt) :
    (generateMemeImage b mt m d i s env settleAt).2 = .error timeoutUserMessage := by
  simp only [generateMemeImage, withTimeout, if_pos h]
  rfl

/-- Witness for C1 at a concrete settlement time just past the timer,
showing the fulfilled in-flight result is discarded. -/
theorem generate_timeout_rejects_witness :
    120000 < 120001 ∧
      (generateMemeImage "img" "image/png" "" "" 50 "Anime"
          (.ok imageResponse) 120001).2 = .error timeoutUserMessage :=
  ⟨by decide, generate_timeout_rejects "img" "image/png" "" "" 50 "Anime"
      (.ok imageResponse) 120001 (by decide)⟩

/-- C2: cropImageToSquare produces a square canvas whose side is the
minimum of width and height on both axes, sourced from the centered region
at offsetX equal to half of width minus size and offsetY equal to half of
height minus size, at one-to-one scale, serialized as a PNG data URL. -/
theorem cropToSquare_center_spec (img : HTMLImage) :
    (cropImageToSquare img).canvasWidth = min img.width img.height ∧
    (cropImageToSquare img).canvasHeight = min img.width img.height ∧
    (cropImageToSquare img).sx =
      ((img.width : ℚ) - ((min img.width img.height : Nat) : ℚ)) / 2 ∧
    (cropImageToSquare img).sy =
      ((img.height : ℚ) - ((min img.width img.height : Nat) : ℚ)) / 2 ∧
    (cropImageToSquare img).sw = ((min img.width img.height : Nat) : ℚ) ∧
    (cropImageToSquare img).sh = ((min img.width img.height : Nat) : ℚ) ∧
    (cropImageToSquare img).dx = 0 ∧
    (cropImageToSquare img).dy = 0 ∧
    (cropImageToSquare img).dw = (cropImageToSquare img).sw ∧
    (cropImageToSquare img).dh = (cropImageToSquare img).sh ∧
    (cropImageToSquare img).format = "image/png" :=
  ⟨rfl, rfl, rfl, rfl, rfl, rfl, rfl, rfl, rfl, rfl, rfl⟩

/-- C3: the intensity instruction maps the integer domain zero to one
hundred into exactly three tiers with inclusive thresholds 33 and 66, and
in particular 33 yields the subtle clause, 34 and 66 the balanced clause,
and 67 the heavy-redraw clause. -/
theorem intensity_three_tiers (i : ℚ) :
    (0 ≤ i → i ≤ 33 → getIntensityInstruction i =
      "Subtly apply the style, making minimal changes to the original image\x27s structure and preserving the subject\x27s facial features as closely as possible.") ∧
    (34 ≤ i → i ≤ 66 → getIntensityInstruction i =
      "Apply a balanced style, preserving the core facial features of the subject while clearly transforming the overall aesthetic.") ∧
    (67 ≤ i → i ≤ 100 → getIntensityInstruction i =
      "Heavily redraw the image in the style, retaining only the most essential facial characteristics (like eye position and basic expression) while transforming everything else significantly.") ∧
    getIntensityInstruction 33 = getIntensityInstruction 0 ∧
    getIntensityInstruction 34 = getIntensityInstruction 66 ∧
    getIntensityInstruction 34 ≠ getIntensityInstruction 33 ∧
    getIntensityInstruction 67 = getIntensityInstruction 100 ∧
    getIntensityInstruction 67 ≠ getIntensityInstruction 66 := by
  refine ⟨?_, ?_, ?_, by decide, by decide, by decide, by decide, by decide⟩
  · intro _ h2
    unfold getIntensityInstruction
    rw [if_pos h2]
  · intro h1 h2
    have h3 : ¬ i ≤ 33 := by linarith
    unfold getIntensityInstruction
    rw [if_neg h3, if_pos h2]
  · intro h1 _
    have h3 : ¬ i ≤ 33 := by linarith
    have h4 : ¬ i ≤ 66 := by linarith
    unfold getIntensityInstruction
    rw [if_neg h3, if_neg h4]

/-- Witness for C3 at one interior point per tier. -/
theorem intensity_three_tiers_witness :
    ((0 : ℚ) ≤ 20 ∧ (20 : ℚ) ≤ 33 ∧ getIntensityInstruction 20 =
      "Subtly apply the style, making minimal changes to the original image\x27s structure and preserving the subject\x27s facial features as closely as possible.") ∧
    ((34 : ℚ) ≤ 50 ∧ (50 : ℚ) ≤ 66 ∧ getIntensityInstruction 50 =
      "Apply a balanced style, preserving the core facial features of the subject while clearly transforming the overall aesthetic.") ∧
    ((67 : ℚ) ≤ 80 ∧ (80 : ℚ) ≤ 100 ∧ getIntensityInstruction 80 =
      "Heavily redraw the image in the style, retaining only the most essential facial characteristics (like eye position and basic expression) while transforming everything else significantly.") :=
  ⟨⟨by decide, by decide, (intensity_three_tiers 20).1 (by decide) (by decide)⟩,
   ⟨by decide, by decide, (intensity_three_tiers 50).2.1 (by decide) (by decide)⟩,
   ⟨by decide, by decide, (intensity_three_tiers 80).2.2.1 (by decide) (by decide)⟩⟩

/-- C4: when the call settles in time with a response whose first candidate
has a part carrying inline image data, generateMemeImage resolves with
exactly the data and MIME type of the first such part in scan order. -/
theorem generate_first_image_part (b mt m d : String) (i : ℚ) (s : String)
    (settleAt : Nat) (r : Response) (ps : List Part) (p : Part) (dta : InlineData)
    (hs : settleAt ≤ 120000)
    (hps : responseParts r = some ps)
    (hf : ps.find? (fun q => q.inlineData.isSome) = some p)
    (hd : p.inlineData = some dta) :
    (generateMemeImage b mt m d i s (.ok r) settleAt).2 =
      .ok { base64 := dta.data, mimeType := dta.mimeType } := by
  have hw : withTimeout (Except.ok r) settleAt 120000 = .ok r := by
    simp [withTimeout, Nat.not_lt.mpr hs]
  simp only [generateMemeImage, hw, extract, hps, Option.some_bind, hf, hd]

/-- Witness for C4 on a concrete one-part response settling immediately. -/
theorem generate_first_image_part_witness :
    (100 ≤ 120000) ∧
      (generateMemeImage "img" "image/png" "hi" "" 50 "Anime"
          (.ok imageResponse) 100).2 =
        .ok { base64 := "QkFTRTY0", mimeType := "image/jpeg" } :=
  ⟨by decide, generate_first_image_part "img" "image/png" "hi" "" 50 "Anime"
      100 imageResponse [witnessImagePart] witnessImagePart
      { data := "QkFTRTY0", mimeType := "image/jpeg" }
      (by decide) rfl rfl rfl⟩

/-- C5 counterexample: a response whose only part carries the text
"The server timed out while processing" and no image. The claim as stated
requires the rejection to embed that text verbatim, but the catch block
classifies the refusal message as a timeout because it contains the marker
"timed out", so the rejection is the fixed timeout message, which does not
contain the text of the part. -/
theorem model_refusal_text_not_embedded_cex :
    (generateMemeImage "img" "image/png" "" "" 50 "Anime"
        (.ok (textOnlyResponse "The server timed out while processing")) 0).2 =
      .error timeoutUserMessage ∧
    (∀ a b : String,
      timeoutUserMessage ≠ a ++ "The server timed out while processing" ++ b) := by
  constructor
  · rfl
  · intro a b hEq
    have h1 : strIncludes timeoutUserMessage "The server timed out while processing" = true := by
      rw [hEq]
      exact strIncludes_decomp a _ b
    have h2 : strIncludes timeoutUserMessage "The server timed out while processing" = false := by
      decide
    rw [h1] at h2
    cases h2

/-- C5 amended: when the settled response has no inline-image part, if the
scan finds a part with truthy text and the resulting refusal message does
not contain the timeout marker "timed out", the rejection embeds that text
verbatim inside the wrapped model-refusal message; if no part carries
truthy text, the rejection is the wrapped empty-response message. -/
theorem model_refusal_amended (b mt m d : String) (i : ℚ) (s : String)
    (settleAt : Nat) (r : Response) (ps : List Part)
    (hs : settleAt ≤ 120000)
    (hps : responseParts r = some ps)
    (hni : ps.find? (fun q => q.inlineData.isSome) = none) :
    (∀ tp t, ps.find? (fun q => truthyText q.text) = some tp → tp.text = some t →
      strIncludes ("Model returned text instead of an image: " ++ t) "timed out" = false →
      (generateMemeImage b mt m d i s (.ok r) settleAt).2 =
        .error ("API Error: " ++ ("Model returned text instead of an image: " ++ t)) ∧
      ∃ u v, "API Error: " ++ ("Model returned text instead of an image: " ++ t) =
        u ++ t ++ v) ∧
    (ps.find? (fun q => truthyText q.text) = none →
      (generateMemeImage b mt m d i s (.ok r) settleAt).2 =
        .error "API Error: No image data found in the API response.") := by
  have hw : withTimeout (Except.ok r) settleAt 120000 = .ok r := by
    simp [withTimeout, Nat.not_lt.mpr hs]
  constructor
  · intro tp t hft htt hmark
    have htr := List.find?_some hft
    have hne : t ≠ "" := by
      rw [htt] at htr
      simpa [truthyText] using htr
    constructor
    · simp only [generateMemeImage, hw, extract, hps, Option.some_bind, hni,
        noImageCase, hft, htt, if_neg hne, hmark]
      rfl
    · refine ⟨"API Error: Model returned text instead of an image: ", "", ?_⟩
      rw [String.append_empty, ← String.append_assoc]
      rfl
  · intro hnt
    simp only [generateMemeImage, hw, extract, hps, Option.some_bind, hni,
      noImageCase, hnt]
    rfl

/-- Witness for C5 amended on a concrete refusal text. -/
theorem model_refusal_amended_witness :
    (generateMemeImage "img" "image/png" "" "" 50 "Anime"
        (.ok (textOnlyResponse "I cannot draw that")) 0).2 =
      .error ("API Error: " ++ ("Model returned text instead of an image: " ++ "I cannot draw that")) ∧
    ∃ u v, "API Error: " ++ ("Model returned text instead of an image: " ++ "I cannot draw that") =
      u ++ "I cannot draw that" ++ v :=
  (model_refusal_amended "img" "image/png" "" "" 50 "Anime" 0
      (textOnlyResponse "I cannot draw that")
      [{ inlineData := none, text := some "I cannot draw that" }]
      (by decide) rfl rfl).1
    { inlineData := none, text := some "I cannot draw that" }
    "I cannot draw that" rfl rfl (by decide)

/-- C6: every rejection of generateMemeImage is a single human-readable
message of exactly one of three forms, and the form follows the failure
cause: a non-Error throwable yields the fixed unknown-error message, an
Error whose message carries the timeout marker yields the fixed timeout
message, and any other Error is wrapped as an API error around its original
message. -/
theorem error_message_three_forms (b mt m d : String) (i : ℚ) (s : String)
    (env : Except Thrown Response) (settleAt : Nat) :
    (∀ msg, (generateMemeImage b mt m d i s env settleAt).2 = .error msg →
      msg = timeoutUserMessage ∨ (∃ orig, msg = "API Error: " ++ orig) ∨
        msg = unknownErrorMessage) ∧
    (settleAt ≤ 120000 → env = .error .nonError →
      (generateMemeImage b mt m d i s env settleAt).2 = .error unknownErrorMessage) ∧
    (∀ e, settleAt ≤ 120000 → env = .error (.error e) →
      strIncludes e "timed out" = true →
      (generateMemeImage b mt m d i s env settleAt).2 = .error timeoutUserMessage) ∧
    (∀ e, settleAt ≤ 120000 → env = .error (.error e) →
      strIncludes e "timed out" = false →
      (generateMemeImage b mt m d i s env settleAt).2 =
        .error ("API Error: " ++ e)) := by
  refine ⟨?_, ?_, ?_, ?_⟩
  · intro msg h
    cases hw : withTimeout env settleAt 120000 with
    | error e =>
      cases e with
      | error emsg =>
        cases hb : strIncludes emsg "timed out" with
        | true =>
          simp [generateMemeImage, hw, hb] at h
          exact Or.inl h.symm
        | false =>
          simp [generateMemeImage, hw, hb] at h
          exact Or.inr (Or.inl ⟨emsg, h.symm⟩)
      | nonError =>
        simp [generateMemeImage, hw] at h
        exact Or.inr (Or.inr h.symm)
    | ok r =>
      cases he : extract r with
      | ok v => simp [generateMemeImage, hw, he] at h
      | error e =>
        cases e with
        | error emsg =>
          cases hb : strIncludes emsg "timed out" with
          | true =>
            simp [generateMemeImage, hw, he, hb] at h
            exact Or.inl h.symm
          | false =>
            simp [generateMemeImage, hw, he, hb] at h
            exact Or.inr (Or.inl ⟨emsg, h.symm⟩)
        | nonError =>
          simp [generateMemeImage, hw, he] at h
          exact Or.inr (Or.inr h.symm)
  · intro hs he
    subst he
    simp [generateMemeImage, withTimeout, Nat.not_lt.mpr hs]
  · intro e hs he hb
    subst he
    simp [generateMemeImage, withTimeout, Nat.not_lt.mpr hs, hb]
  · intro e hs he hb
    subst he
    simp [generateMemeImage, withTimeout, Nat.not_lt.mpr hs, hb]

/-- Witness for C6 applying the non-Error arm at a concrete input. -/
theorem error_message_three_forms_witness :
    (5 ≤ 120000) ∧
      (generateMemeImage "img" "image/png" "" "" 50 "Anime"
          (.error .nonError) 5).2 = .error unknownErrorMessage :=
  ⟨by decide, (error_message_three_forms "img" "image/png" "" "" 50 "Anime"
      (.error .nonError) 5).2.1 (by decide) rfl⟩

/-- C7: a style identifier outside the recognized six-element set yields
the same clause as the designated default style Enchanted, and each of the
six known styles maps to its fixed clause. -/
theorem style_unknown_falls_back (s : String)
    (h1 : s ≠ "Realistic") (h2 : s ≠ "Anime") (h3 : s ≠ "J-Art")
    (h4 : s ≠ "Exaggerated") (h5 : s ≠ "Comical") (_h6 : s ≠ "Enchanted") :
    getStyleInstruction s = getStyleInstruction "Enchanted" ∧
    getStyleInstruction "Realistic" =
      "in a photorealistic, cinematic style, as if it were a still from a live-action movie" ∧
    getStyleInstruction "Anime" =
      "in a vibrant Japanese anime style, with characteristic large eyes, expressive features, and dynamic lines" ∧
    getStyleInstruction "J-Art" =
      "in a beautiful, painterly Japanese art style, similar to concept art for a fantasy JRPG" ∧
    getStyleInstruction "Exaggerated" =
      "in a heavily exaggerated caricature style, amplifying the subject\x27s expression and features for comedic effect" ∧
    getStyleInstruction "Comical" =
      "in a goofy, comical cartoon style with bright colors and simplified, funny shapes" ∧
    getStyleInstruction "Enchanted" =
      "in the classic Disney animation style, reminiscent of films like \x27The Little Mermaid\x27 or \x27Aladdin\x27" := by
  refine ⟨?_, by decide, by decide, by decide, by decide, by decide, by decide⟩
  unfold getStyleInstruction
  rw [if_neg h1, if_neg h2, if_neg h3, if_neg h4, if_neg h5]
  decide

/-- Witness for C7 at a concrete unrecognized identifier. -/
theorem style_unknown_falls_back_witness :
    ("Watercolor" ≠ "Realistic") ∧
      getStyleInstruction "Watercolor" = getStyleInstruction "Enchanted" :=
  ⟨by decide, (style_unknown_falls_back "Watercolor" (by decide) (by decide)
      (by decide) (by decide) (by decide) (by decide)).1⟩

/-- C8: the assembled prompt carries the caption-insertion clause exactly
when the trimmed caption is nonempty, and the mood clause exactly when the
trimmed description is nonempty; a whitespace-only string suppresses the
clause entirely, leaving the prompt equal to the prompt built from the
empty string. -/
theorem clause_presence_iff_trimmed (s : String) (i : ℚ) (m d : String) :
    (jsTrim m ≠ "" → ∃ p q, fullPrompt s i m d =
      p ++ ("Finally, integrate the text \"" ++ m ++
        "\" into the image using a prominent, stylized font that fits the chosen aesthetic.") ++ q) ∧
    (jsTrim m = "" → fullPrompt s i m d = fullPrompt s i "" d) ∧
    (jsTrim d ≠ "" → ∃ p q, fullPrompt s i m d =
      p ++ ("Crucially, you must modify the subject\x27s expression, pose, and the scene\x27s atmosphere to visually represent the following description: \"" ++
        d ++ "\".") ++ q) ∧
    (jsTrim d = "" → fullPrompt s i m d = fullPrompt s i m "") := by
  refine ⟨?_, ?_, ?_, ?_⟩
  · intro h
    refine ⟨"Your task is to create an image. Redraw the provided image " ++
      getStyleInstruction s ++ ". " ++ descriptionInstruction d ++ " " ++
      getIntensityInstruction i ++ " ",
      " The output must be the final image only, with no explanatory text.", ?_⟩
    simp only [fullPrompt, textInstruction, if_neg h, String.append_assoc]
  · intro h
    have hm : textInstruction m = "" := by
      unfold textInstruction
      rw [if_pos h]
    have h0 : textInstruction "" = "" := by decide
    simp only [fullPrompt, hm, h0]
  · intro h
    refine ⟨"Your task is to create an image. Redraw the provided image " ++
      getStyleInstruction s ++ ". ",
      " " ++ getIntensityInstruction i ++ " " ++ textInstruction m ++
        " The output must be the final image only, with no explanatory text.", ?_⟩
    simp only [fullPrompt, descriptionInstruction, if_neg h, String.append_assoc]
  · intro h
    have hd : descriptionInstruction d = "" := by
      unfold descriptionInstruction
      rw [if_pos h]
    have h0 : descriptionInstruction "" = "" := by decide
    simp only [fullPrompt, hd, h0]

/-- Witness for C8: a nonempty caption contributes its clause and a
whitespace-only description is suppressed. -/
theorem clause_presence_iff_trimmed_witness :
    (jsTrim "hello" ≠ "" ∧ ∃ p q, fullPrompt "Anime" 50 "hello" "  " =
      p ++ ("Finally, integrate the text \"" ++ "hello" ++
        "\" into the image using a prominent, stylized font that fits the chosen aesthetic.") ++ q) ∧
    (jsTrim "  " = "" ∧
      fullPrompt "Anime" 50 "hello" "  " = fullPrompt "Anime" 50 "hello" "") :=
  ⟨⟨by decide, (clause_presence_iff_trimmed "Anime" 50 "hello" "  ").1 (by decide)⟩,
   ⟨by decide, (clause_presence_iff_trimmed "Anime" 50 "hello" "  ").2.2.2 (by decide)⟩⟩

/-- C9: on an image whose width equals its height, the crop is a no-op: the
source offsets are zero, the canvas has the dimensions of the input, the
source and destination rectangles cover the whole image at one-to-one
scale, and the rendered result is pixel-identical to the input. -/
theorem crop_identity_on_square (img : HTMLImage) (h : img.width = img.height) :
    (cropImageToSquare img).sx = 0 ∧
    (cropImageToSquare img).sy = 0 ∧
    (cropImageToSquare img).canvasWidth = img.width ∧
    (cropImageToSquare img).canvasHeight = img.height ∧
    (cropImageToSquare img).sw = (img.width : ℚ) ∧
    (cropImageToSquare img).sh = (img.height : ℚ) ∧
    (cropImageToSquare img).dw = (img.width : ℚ) ∧
    (cropImageToSquare img).dh = (img.height : ℚ) ∧
    HTMLImage.identical (renderCrop img 0 0 (min img.width img.height)) img := by
  have hm : min img.width img.height = img.width := by
    rw [h, min_self]
  refine ⟨?_, ?_, ?_, ?_, ?_, ?_, ?_, ?_, ?_, ?_, ?_⟩
  · simp [cropImageToSquare, hm]
  · simp [cropImageToSquare, hm, h]
  · simp [cropImageToSquare, hm]
  · simp [cropImageToSquare, hm, h]
  · simp [cropImageToSquare, hm]
  · simp [cropImageToSquare, hm, h]
  · simp [cropImageToSquare, hm]
  · simp [cropImageToSquare, hm, h]
  · simp [renderCrop, hm]
  · simp [renderCrop, hm, h]
  · intro x hx y hy
    simp [renderCrop]

/-- Witness for C9 on a concrete two-by-two image. -/
theorem crop_identity_on_square_witness :
    squareImage.width = squareImage.height ∧
      HTMLImage.identical
        (renderCrop squareImage 0 0 (min squareImage.width squareImage.height))
        squareImage :=
  ⟨rfl, (crop_identity_on_square squareImage rfl).2.2.2.2.2.2.2.2⟩

/-- C10: the intensity mapping is total over all numbers: every intensity
below zero yields the subtle clause, every intensity above one hundred
yields the heavy-redraw clause, and every intensity yields one of the three
clauses, so prompt assembly never fails on an out-of-range intensity. -/
theorem intensity_total_out_of_range (i : ℚ) :
    (i < 0 → getIntensityInstruction i =
      "Subtly apply the style, making minimal changes to the original image\x27s structure and preserving the subject\x27s facial features as closely as possible.") ∧
    (100 < i → getIntensityInstruction i =
      "Heavily redraw the image in the style, retaining only the most essential facial characteristics (like eye position and basic expression) while transforming everything else significantly.") ∧
    (getIntensityInstruction i =
      "Subtly apply the style, making minimal changes to the original image\x27s structure and preserving the subject\x27s facial features as closely as possible." ∨
     getIntensityInstruction i =
      "Apply a balanced style, preserving the core facial features of the subject while clearly transforming the overall aesthetic." ∨
     getIntensityInstruction i =
      "Heavily redraw the image in the style, retaining only the most essential facial characteristics (like eye position and basic expression) while transforming everything else significantly.") := by
  refine ⟨?_, ?_, ?_⟩
  · intro h
    have h2 : i ≤ 33 := by linarith
    unfold getIntensityInstruction
    rw [if_pos h2]
  · intro h
    have h3 : ¬ i ≤ 33 := by linarith
    have h4 : ¬ i ≤ 66 := by linarith
    unfold getIntensityInstruction
    rw [if_neg h3, if_neg h4]
  · unfold getIntensityInstruction
    by_cases h3 : i ≤ 33
    · exact Or.inl (by rw [if_pos h3])
    · by_cases h6 : i ≤ 66
      · exact Or.inr (Or.inl (by rw [if_neg h3, if_pos h6]))
      · exact Or.inr (Or.inr (by rw [if_neg h3, if_neg h6]))

/-- Witness for C10 at one point below zero and one above one hundred. -/
theorem intensity_total_out_of_range_witness :
    ((-7 : ℚ) < 0 ∧ getIntensityInstruction (-7) =
      "Subtly apply the style, making minimal changes to the original image\x27s structure and preserving the subject\x27s facial features as closely as possible.") ∧
    ((100 : ℚ) < 101 ∧ getIntensityInstruction 101 =
      "Heavily redraw the image in the style, retaining only the most essential facial characteristics (like eye position and basic expression) while transforming everything else significantly.") :=
  ⟨⟨by decide, (intensity_total_out_of_range (-7)).1 (by decide)⟩,
   ⟨by decide, (intensity_total_out_of_range 101).2.1 (by decide)⟩⟩

end MagicMeme
